import Mathlib

/-
Verification of the authenticated-request core of the `eskiz_sms` package
(`eskiz_sms/request.py`), a Python HTTP client for an SMS gateway.

The embedding below translates, line by line, the parts of `request.py`
that the spec talks about:
  * the `_Response` / `_Request` dataclasses,
  * `BaseRequest._bad_request` and `BaseRequest._check_response`,
  * `Request.request` / `Request.async_request` (the sync and async
    executors share one algorithm, differing only in `await` points, so a
    single Lean function `request_exec` embeds both),
  * `Request.__call__`, `Request._prepare_payload`,
  * the `_wrapper` closure built by `Request._method_decorator`,
  * `Coro.__init__`.

JSON bodies are modelled as flat association lists from string keys to
string values (the classifier only ever reads the string-valued fields
`status` and `message`; deeper JSON structure never influences control
flow).  Python exceptions are modelled with an explicit error type `PyErr`
threaded through `Except`.
-/

set_option autoImplicit false

namespace EskizSms

/-- A JSON object body, as the dict `httpx.Response.json()` would yield:
an association list of string keys to string values. -/
abbrev JsonDict : Type := List (String × String)

/-- Python `d.get(k)`: the value at key `k`, `None` (here `none`) when the
key is absent.  A Python dict has at most one entry per key; on such lists
the first-occurrence lookup below coincides with dict lookup. -/
def dictGet : JsonDict → String → Option String
  | [], _ => none
  | p :: t, k => if p.1 = k then some p.2 else dictGet t k

/-- The effect of Python `d.pop(k)` on the remaining dict: drop the entry
with key `k` (Python dicts hold at most one). -/
def dictRemove : JsonDict → String → JsonDict
  | [], _ => []
  | p :: t, k => if p.1 = k then dictRemove t k else p :: dictRemove t k

/-- Python `d[k] = v`: replace the value at key `k` in place when the key
exists, otherwise append the new entry at the end (dict insertion order). -/
def dictSet : JsonDict → String → String → JsonDict
  | [], k, v => [(k, v)]
  | p :: t, k, v => if p.1 = k then (k, v) :: t else p :: dictSet t k v

/-- Python `d.get(k) or fallback` reads the value at `k` but treats a falsy
value (for strings: the empty string) like an absent key.  `truthyGet`
returns the value only when it is present and truthy. -/
def truthyGet (d : JsonDict) (k : String) : Option String :=
  match dictGet d k with
  | some v => if v = "" then none else some v
  | none => none

/-- The body of an HTTP response as the classifier sees it: either a body
that `r.json()` parses to a JSON object, or a plain-text body on which
`r.json()` raises `JSONDecodeError`. -/
inductive Body where
  | json (d : JsonDict)
  | text (s : String)
deriving DecidableEq

/-- The raw transport response handed to `BaseRequest._check_response`
(an `httpx.Response`): a status code and a body. -/
structure HttpxResponse where
  status_code : Nat
  body : Body
deriving DecidableEq

/-- The `_Response` dataclass of `request.py`:
`status_code: int`, `data: dict`, `token_expired: bool = False`. -/
structure _Response where
  status_code : Nat
  data : JsonDict
  token_expired : Bool := false
deriving DecidableEq

/-- The `_Request` dataclass of `request.py`:
`method: str`, `url: str`, `data: dict = None`, `headers: dict = None`. -/
structure _Request where
  method : String
  url : String
  data : Option JsonDict := none
  headers : Option JsonDict := none
deriving DecidableEq

/-- The `BadRequest` exception's payload (`eskiz_sms/exceptions.py` is not
under src/; the fields are exactly the keyword arguments `_bad_request`
passes: `message`, `status`, `status_code`). -/
structure BadRequestE where
  message : String
  status : Option String
  status_code : Nat
deriving DecidableEq

/-- A Python exception escaping the embedded code: the application-level
`BadRequest`, the transport-level `HTTPError` wrapper, or one of the
builtin exceptions the code can raise by accident (`AttributeError` from
the `response.status_code` read while `response is None`, `KeyError` from
`responses[...]` on an unknown status code, `TypeError` from applying `-`
to types). -/
inductive PyErr where
  | badRequest (e : BadRequestE)
  | httpError (msg : String)
  | attributeError
  | keyError
  | typeError
deriving DecidableEq

/-- Modelled from the spec: the sentinel value `Status.TOKEN_INVALID` of
`eskiz_sms/enums.py` (not under src/); the spec's wire contract reads
`a 401 response whose JSON body has status == "token_invalid"`. -/
def TOKEN_INVALID : String := "token_invalid"

/-- Modelled from the spec: the sentinel value `Message.EXPIRED_TOKEN` of
`eskiz_sms/enums.py` (not under src/); the spec's wire contract reads
`message == "Token expired"`. -/
def EXPIRED_TOKEN : String := "Token expired"

/-- The standard-phrase table `http.client.responses` of the Python
standard library (external to the repository), restricted to the status
codes the theorems below use; codes outside the table behave like the
dict's `KeyError`. -/
def responses (c : Nat) : Option String :=
  if c = 200 then some "OK"
  else if c = 201 then some "Created"
  else if c = 204 then some "No Content"
  else if c = 400 then some "Bad Request"
  else if c = 401 then some "Unauthorized"
  else if c = 403 then some "Forbidden"
  else if c = 404 then some "Not Found"
  else if c = 422 then some "Unprocessable Entity"
  else if c = 429 then some "Too Many Requests"
  else if c = 500 then some "Internal Server Error"
  else if c = 502 then some "Bad Gateway"
  else if c = 503 then some "Service Unavailable"
  else none

/-- `BaseRequest._bad_request` (request.py lines 54-60):

    return BadRequest(
        message=_response.data.get('message') or responses[_response.status_code],
        status=_response.data.get('status'),
        status_code=_response.status_code)

`or` falls through to `responses[...]` exactly when `data.get('message')`
is falsy (absent or the empty string); `responses[...]` raises `KeyError`
on a status code outside the table. -/
def bad_request (resp : _Response) : Except PyErr BadRequestE :=
  match truthyGet resp.data "message" with
  | some m =>
      Except.ok { message := m, status := dictGet resp.data "status", status_code := resp.status_code }
  | none =>
      match responses resp.status_code with
      | some phrase =>
          Except.ok { message := phrase, status := dictGet resp.data "status", status_code := resp.status_code }
      | none => Except.error PyErr.keyError

/-- `BaseRequest._check_response` (request.py lines 76-100), line by line:

    response: Optional[_Response] = None
    try:
        response = _Response(status_code=r.status_code, data=r.json())
    except JSONDecodeError:
        if response.status_code == 200:
            ...

When `r.json()` raises `JSONDecodeError` (the `Body.text` case), the
assignment to `response` never completed, so `response` is still `None`
inside the handler and the attribute read `response.status_code` raises
`AttributeError` immediately.  Consequently the `API version:` regex
search, and the later `if response is None:` fallback to
`{'message': responses[r.status_code]}`, are unreachable.  (The debug log
line is a pure side effect with no influence on the result.)

In the JSON case the function continues:

    if response.status_code == 401:
        if response.data.get('status') == ResponseStatus.TOKEN_INVALID:
            if response.data.get('message') == ResponseMessage.EXPIRED_TOKEN:
                response.token_expired = True
                return response
    if response.status_code not in [200, 201]:
        raise self._bad_request(response)
    return response
-/
def check_response (r : HttpxResponse) : Except PyErr _Response :=
  match r.body with
  | Body.text _ => Except.error PyErr.attributeError
  | Body.json d =>
      let response : _Response := { status_code := r.status_code, data := d }
      if response.status_code = 401 ∧
         dictGet response.data "status" = some TOKEN_INVALID ∧
         dictGet response.data "message" = some EXPIRED_TOKEN then
        Except.ok { response with token_expired := true }
      else if ¬ (response.status_code = 200 ∨ response.status_code = 201) then
        match bad_request response with
        | Except.ok br => Except.error (PyErr.badRequest br)
        | Except.error e => Except.error e
      else
        Except.ok response

/-- Modelled from the spec: the Token Provider contract (`eskiz_sms/token.py`
is not under src/).  `get()` returns the held token string `value`;
`update()` forces re-authentication and replaces the held token with the
freshly obtained `new_value`; `auto_update` is the flag gating
refresh-and-retry. -/
structure Token where
  value : String
  new_value : String
  auto_update : Bool
deriving DecidableEq

/-- What one transport exchange produces: an `httpx.Response`, or an
`httpx.HTTPError` raised at the connection level. -/
inductive TransportOutcome where
  | resp (r : HttpxResponse)
  | failure (msg : String)
deriving DecidableEq

/-- `BaseRequest._request` / `BaseRequest._a_request` (request.py lines
62-74): perform one transport exchange, classify the response with
`_check_response`, and wrap an `httpx.HTTPError` into the package's
`HTTPError` (modelled as `PyErr.httpError`). -/
def do_request (o : TransportOutcome) : Except PyErr _Response :=
  match o with
  | TransportOutcome.resp r => check_response r
  | TransportOutcome.failure m => Except.error (PyErr.httpError m)

/-- The header assignment of `Request.request` / `Request.async_request`:

    _token_value = token.get()
    _request.headers = {"Authorization": f"Bearer {_token_value}"}

performed once, before the first send; the `_Request` object's headers are
never rebuilt afterwards. -/
def authed (tok : Token) (req0 : _Request) : _Request :=
  { req0 with headers := some [("Authorization", "Bearer " ++ tok.value)] }

deriving instance DecidableEq for Except

/-- The observable outcome of one call of `Request.request` /
`Request.async_request`: the returned data or the raised exception, the
requests actually handed to the transport (with the headers they carried
at send time), the number of `token.update()` calls, and the token value
the provider holds afterwards. -/
structure ExecResult where
  result : Except PyErr JsonDict
  sent : List _Request
  updates : Nat
  final_token : String
deriving DecidableEq

/-- Raising `self._bad_request(response)`: the constructed `BadRequest`
(or the `KeyError` escaping its construction). -/
def raise_bad_request (resp : _Response) : Except PyErr JsonDict :=
  match bad_request resp with
  | Except.ok br => Except.error (PyErr.badRequest br)
  | Except.error e => Except.error e

/-- `Request.request` (request.py lines 143-154); `Request.async_request`
(lines 130-141) is the identical algorithm with `await` at the token fetch,
the sends and the refresh, so this function embeds both:

    _token_value = token.get()
    _request.headers = {"Authorization": f"Bearer {_token_value}"}
    response = self._request(_request)
    if response.token_expired and token.auto_update:
        token.update()
        response = self._request(_request)
    if response.status_code not in [200, 201]:
        raise self._bad_request(response)
    return response.data

`o1` is the outcome the transport yields for the first send and `o2` the
outcome it would yield for a second send of the same request.  Both sends
hand over the same `_Request` object, whose headers still hold the token
value read before `token.update()`. -/
def request_exec (o1 o2 : TransportOutcome) (tok : Token) (req0 : _Request) : ExecResult :=
  let req := authed tok req0
  match do_request o1 with
  | Except.error e =>
      { result := Except.error e, sent := [req], updates := 0, final_token := tok.value }
  | Except.ok response =>
      if response.token_expired = true ∧ tok.auto_update = true then
        match do_request o2 with
        | Except.error e =>
            { result := Except.error e, sent := [req, req], updates := 1, final_token := tok.new_value }
        | Except.ok response2 =>
            if ¬ (response2.status_code = 200 ∨ response2.status_code = 201) then
              { result := raise_bad_request response2, sent := [req, req], updates := 1,
                final_token := tok.new_value }
            else
              { result := Except.ok response2.data, sent := [req, req], updates := 1,
                final_token := tok.new_value }
      else
        if ¬ (response.status_code = 200 ∨ response.status_code = 201) then
          { result := raise_bad_request response, sent := [req], updates := 0,
            final_token := tok.value }
        else
          { result := Except.ok response.data, sent := [req], updates := 0,
            final_token := tok.value }

/-- The characters `Request._prepare_payload` strips from `mobile_phone`
with `.replace("+", "").replace(" ", "")`: removing every occurrence of
`+` and then every occurrence of the space character equals filtering both
characters out. -/
def stripPlusSpace (s : String) : String :=
  String.mk (List.filter (fun c => ¬ (c = '+' ∨ c = ' ')) s.data)

/-- `Request._prepare_payload` (request.py lines 156-163):

    payload = payload or {}
    if 'from_whom' in payload:
        payload['from'] = payload.pop('from_whom')
    if 'mobile_phone' in payload:
        payload['mobile_phone'] = payload['mobile_phone'].replace("+", "").replace(" ", "")
    return payload
-/
def prepare_payload (payload : Option JsonDict) : JsonDict :=
  let p0 := payload.getD []
  let p1 :=
    match dictGet p0 "from_whom" with
    | some v => dictSet (dictRemove p0 "from_whom") "from" v
    | none => p0
  match dictGet p1 "mobile_phone" with
  | some v => dictSet p1 "mobile_phone" (stripPlusSpace v)
  | none => p1

/-- `BaseRequest._prepare_request` together with `_url` (request.py lines
28-29 and 49-51): `_Request(method, BASE_URL + path, data, headers)`. -/
def prepare_request (method path : String) (data : Option JsonDict) (headers : Option JsonDict) : _Request :=
  { method := method, url := "https://notify.eskiz.uz/api" ++ path, data := data, headers := headers }

/-- The request built by `Request.__call__` (request.py lines 118-128):
the payload goes through `_prepare_payload` before `_prepare_request`. -/
def call_build (method path : String) (payload : Option JsonDict) : _Request :=
  prepare_request method path (some (prepare_payload payload)) none

/-- `Request.__call__` followed by `request` / `async_request`: build the
request from the normalized payload, then execute it. -/
def call_exec (o1 o2 : TransportOutcome) (tok : Token) (method path : String)
    (payload : Option JsonDict) : ExecResult :=
  request_exec o1 o2 tok (call_build method path payload)

/-- The request built by the `_wrapper` closure inside
`Request._method_decorator` (request.py lines 182-187):

    _returned_val = fn(klass, **kwargs)
    _request = self._prepare_request(method, path, data=_returned_val)

`fn`'s return value (`fn_result`) is handed to `_prepare_request` directly;
`_prepare_payload` is not applied on this path. -/
def wrapper_request (method path : String) (fn_result : JsonDict) : _Request :=
  prepare_request method path (some fn_result) none

/-- A declared response shape (`response_model`), identified by name; the
adapter would construct it from the result mapping by keyword match. -/
structure Model where
  name : String
deriving DecidableEq

/-- A `Coro` object's intended attributes: the wrapped coroutine (modelled
by the `ExecResult` it would produce when awaited) and the declared
response shape. -/
structure CoroObj where
  coro : ExecResult
  return_type : Option Model
deriving DecidableEq

/-- `Coro.__init__` (request.py lines 103-105):

    def __init__(self, coro: Coroutine, return_type: type) -> None:
        self.coro=coro
        self.return_type-return_type

The second statement is a subtraction expression, not an assignment: it
reads the attribute `self.return_type`, which was never assigned, so it
raises `AttributeError` before the instance is ever returned.  (Had the
attribute existed, `type - type` would raise `TypeError` instead; either
way construction cannot succeed.) -/
def Coro_init (coro : ExecResult) (return_type : Option Model) : Except PyErr CoroObj :=
  let _self_coro := coro
  let _unused := return_type
  Except.error PyErr.attributeError

/-- The async branch of `_wrapper` (request.py lines 188-189):

    if self._is_async:
        return Coro(self.async_request(_request, klass.token), response_model)

`self.async_request(...)` only creates the coroutine (modelled by the
`ExecResult` it would produce once awaited); `Coro(...)` is evaluated
eagerly at call time. -/
def wrapper_async (o1 o2 : TransportOutcome) (tok : Token) (method path : String)
    (fn_result : JsonDict) (response_model : Option Model) : Except PyErr CoroObj :=
  Coro_init (request_exec o1 o2 tok (wrapper_request method path fn_result)) response_model

/-! Association-list lemmas for the dict model. -/

theorem dictGet_set_self (k v : String) : ∀ d : JsonDict, dictGet (dictSet d k v) k = some v := by
  intro d
  induction d with
  | nil => simp [dictSet, dictGet]
  | cons p t ih =>
      by_cases h : p.1 = k
      · simp [dictSet, dictGet, h]
      · simp [dictSet, dictGet, h, ih]

theorem dictGet_set_ne (k k' v : String) (h : ¬ k' = k) :
    ∀ d : JsonDict, dictGet (dictSet d k v) k' = dictGet d k' := by
  intro d
  have h' : ¬ k = k' := fun hc => h hc.symm
  induction d with
  | nil => simp [dictSet, dictGet, h']
  | cons p t ih =>
      by_cases hp : p.1 = k
      · have hpk' : ¬ p.1 = k' := by
          rw [hp]
          exact h'
        simp [dictSet, dictGet, hp, h', hpk']
      · by_cases hk' : p.1 = k'
        · simp [dictSet, dictGet, hp, hk', h]
        · simp [dictSet, dictGet, hp, hk', ih]

theorem dictGet_remove_self (k : String) : ∀ d : JsonDict, dictGet (dictRemove d k) k = none := by
  intro d
  induction d with
  | nil => simp [dictRemove, dictGet]
  | cons p t ih =>
      by_cases h : p.1 = k
      · simp [dictRemove, h, ih]
      · simp [dictRemove, dictGet, h, ih]

theorem dictGet_remove_ne (k k' : String) (h : ¬ k' = k) :
    ∀ d : JsonDict, dictGet (dictRemove d k) k' = dictGet d k' := by
  intro d
  have h' : ¬ k = k' := fun hc => h hc.symm
  induction d with
  | nil => simp [dictRemove, dictGet]
  | cons p t ih =>
      by_cases hp : p.1 = k
      · have hpk' : ¬ p.1 = k' := by
          rw [hp]
          exact h'
        simp [dictRemove, dictGet, hp, h', hpk', ih]
      · by_cases hk' : p.1 = k'
        · simp [dictRemove, dictGet, hp, hk', h, ih]
        · simp [dictRemove, dictGet, hp, hk', ih]

/-- In every execution of `Request.request` / `Request.async_request`,
`token.update()` is called at most once and the transport performs at most
two sends. -/
theorem exec_bounds (o1 o2 : TransportOutcome) (tok : Token) (req : _Request) :
    (request_exec o1 o2 tok req).updates ≤ 1 ∧ (request_exec o1 o2 tok req).sent.length ≤ 2 := by
  simp only [request_exec]
  split
  · simp
  · split
    · split
      · simp
      · split
        · simp
        · simp
    · split
      · simp
      · simp

/-- C1: when the first response is the expired-token sentinel (401 with
status `token_invalid` and message `Token expired`) and the token
provider's `auto_update` flag is set, the executor calls `token.update()`
exactly once and resends the request exactly once; when the resent request
yields a 200/201 JSON response, that response's data mapping is returned
and no exception is raised. -/
theorem expired_token_refresh_retry_success (tok : Token) (req : _Request)
    (d1 d2 : JsonDict) (c2 : Nat)
    (hauto : tok.auto_update = true)
    (hs : dictGet d1 "status" = some "token_invalid")
    (hm : dictGet d1 "message" = some "Token expired")
    (hc : c2 = 200 ∨ c2 = 201) :
    (request_exec (TransportOutcome.resp ⟨401, Body.json d1⟩)
        (TransportOutcome.resp ⟨c2, Body.json d2⟩) tok req).updates = 1 ∧
    (request_exec (TransportOutcome.resp ⟨401, Body.json d1⟩)
        (TransportOutcome.resp ⟨c2, Body.json d2⟩) tok req).sent.length = 2 ∧
    (request_exec (TransportOutcome.resp ⟨401, Body.json d1⟩)
        (TransportOutcome.resp ⟨c2, Body.json d2⟩) tok req).result = Except.ok d2 := by
  rcases hc with rfl | rfl <;>
    simp [request_exec, do_request, check_response, TOKEN_INVALID, EXPIRED_TOKEN,
      hs, hm, hauto]

/-- Witness for C1 at a concrete input. -/
theorem expired_token_refresh_retry_success_witness :
    (request_exec
        (TransportOutcome.resp ⟨401, Body.json [("status", "token_invalid"), ("message", "Token expired")]⟩)
        (TransportOutcome.resp ⟨200, Body.json [("id", "123"), ("status", "waiting")]⟩)
        { value := "token0", new_value := "token1", auto_update := true }
        { method := "POST", url := "https://notify.eskiz.uz/api/message/sms/send" }).updates = 1 ∧
    (request_exec
        (TransportOutcome.resp ⟨401, Body.json [("status", "token_invalid"), ("message", "Token expired")]⟩)
        (TransportOutcome.resp ⟨200, Body.json [("id", "123"), ("status", "waiting")]⟩)
        { value := "token0", new_value := "token1", auto_update := true }
        { method := "POST", url := "https://notify.eskiz.uz/api/message/sms/send" }).sent.length = 2 ∧
    (request_exec
        (TransportOutcome.resp ⟨401, Body.json [("status", "token_invalid"), ("message", "Token expired")]⟩)
        (TransportOutcome.resp ⟨200, Body.json [("id", "123"), ("status", "waiting")]⟩)
        { value := "token0", new_value := "token1", auto_update := true }
        { method := "POST", url := "https://notify.eskiz.uz/api/message/sms/send" }).result
      = Except.ok [("id", "123"), ("status", "waiting")] :=
  expired_token_refresh_retry_success
    { value := "token0", new_value := "token1", auto_update := true }
    { method := "POST", url := "https://notify.eskiz.uz/api/message/sms/send" }
    [("status", "token_invalid"), ("message", "Token expired")]
    [("id", "123"), ("status", "waiting")] 200
    rfl (by decide) (by decide) (Or.inl rfl)

/-- C2: when the retried request again yields the expired-token sentinel,
the executor raises `BadRequest` built from that second response,
`token.update()` is not called a second time, and only two sends occur;
moreover every execution performs at most one refresh and at most two
sends. -/
theorem expired_token_twice_raises (tok : Token) (req : _Request) (d1 d2 : JsonDict)
    (hauto : tok.auto_update = true)
    (hs1 : dictGet d1 "status" = some "token_invalid")
    (hm1 : dictGet d1 "message" = some "Token expired")
    (hs2 : dictGet d2 "status" = some "token_invalid")
    (hm2 : dictGet d2 "message" = some "Token expired") :
    (request_exec (TransportOutcome.resp ⟨401, Body.json d1⟩)
        (TransportOutcome.resp ⟨401, Body.json d2⟩) tok req).result
      = Except.error (PyErr.badRequest
          { message := "Token expired", status := some "token_invalid", status_code := 401 }) ∧
    (request_exec (TransportOutcome.resp ⟨401, Body.json d1⟩)
        (TransportOutcome.resp ⟨401, Body.json d2⟩) tok req).updates = 1 ∧
    (request_exec (TransportOutcome.resp ⟨401, Body.json d1⟩)
        (TransportOutcome.resp ⟨401, Body.json d2⟩) tok req).sent.length = 2 ∧
    (∀ p1 p2 : TransportOutcome, ∀ t : Token, ∀ q : _Request,
      (request_exec p1 p2 t q).updates ≤ 1 ∧ (request_exec p1 p2 t q).sent.length ≤ 2) := by
  refine ⟨?_, ?_, ?_, fun p1 p2 t q => exec_bounds p1 p2 t q⟩ <;>
    simp [request_exec, do_request, check_response, raise_bad_request, bad_request,
      truthyGet, TOKEN_INVALID, EXPIRED_TOKEN, hs1, hm1, hs2, hm2, hauto]

/-- Witness for C2 at a concrete input. -/
theorem expired_token_twice_raises_witness :
    (request_exec
        (TransportOutcome.resp ⟨401, Body.json [("status", "token_invalid"), ("message", "Token expired")]⟩)
        (TransportOutcome.resp ⟨401, Body.json [("status", "token_invalid"), ("message", "Token expired")]⟩)
        { value := "token0", new_value := "token1", auto_update := true }
        { method := "GET", url := "https://notify.eskiz.uz/api/user/get-limit" }).result
      = Except.error (PyErr.badRequest
          { message := "Token expired", status := some "token_invalid", status_code := 401 }) ∧
    (request_exec
        (TransportOutcome.resp ⟨401, Body.json [("status", "token_invalid"), ("message", "Token expired")]⟩)
        (TransportOutcome.resp ⟨401, Body.json [("status", "token_invalid"), ("message", "Token expired")]⟩)
        { value := "token0", new_value := "token1", auto_update := true }
        { method := "GET", url := "https://notify.eskiz.uz/api/user/get-limit" }).updates = 1 ∧
    (request_exec
        (TransportOutcome.resp ⟨401, Body.json [("status", "token_invalid"), ("message", "Token expired")]⟩)
        (TransportOutcome.resp ⟨401, Body.json [("status", "token_invalid"), ("message", "Token expired")]⟩)
        { value := "token0", new_value := "token1", auto_update := true }
        { method := "GET", url := "https://notify.eskiz.uz/api/user/get-limit" }).sent.length = 2 ∧
    (∀ p1 p2 : TransportOutcome, ∀ t : Token, ∀ q : _Request,
      (request_exec p1 p2 t q).updates ≤ 1 ∧ (request_exec p1 p2 t q).sent.length ≤ 2) :=
  expired_token_twice_raises
    { value := "token0", new_value := "token1", auto_update := true }
    { method := "GET", url := "https://notify.eskiz.uz/api/user/get-limit" }
    [("status", "token_invalid"), ("message", "Token expired")]
    [("status", "token_invalid"), ("message", "Token expired")]
    rfl (by decide) (by decide) (by decide) (by decide)

/-- C3: the claim says the retried send carries an Authorization header
built from the token value obtained after the refresh.  In the code the
headers are assigned once, before the first send, from the token value
read at that moment, and the same `_Request` object is resent unchanged
after `token.update()`: the provider now holds the fresh token
(`new_token`) while both sends carried `Bearer old_token`. -/
theorem retry_resends_stale_authorization_header :
    (request_exec
        (TransportOutcome.resp ⟨401, Body.json [("status", "token_invalid"), ("message", "Token expired")]⟩)
        (TransportOutcome.resp ⟨200, Body.json [("id", "123")]⟩)
        { value := "old_token", new_value := "new_token", auto_update := true }
        { method := "POST", url := "https://notify.eskiz.uz/api/message/sms/send" }).final_token
      = "new_token" ∧
    List.map _Request.headers
      (request_exec
        (TransportOutcome.resp ⟨401, Body.json [("status", "token_invalid"), ("message", "Token expired")]⟩)
        (TransportOutcome.resp ⟨200, Body.json [("id", "123")]⟩)
        { value := "old_token", new_value := "new_token", auto_update := true }
        { method := "POST", url := "https://notify.eskiz.uz/api/message/sms/send" }).sent
      = [some [("Authorization", "Bearer old_token")], some [("Authorization", "Bearer old_token")]] ∧
    ¬ ("Bearer old_token" = "Bearer new_token") := by
  refine ⟨by decide, by decide, by decide⟩

/-- C4: the claim says `_check_response` does not crash on a 200 response
whose body fails JSON parsing, extracting `API version: 4.12` into the
data mapping.  In the code the `except JSONDecodeError` handler reads
`response.status_code` while `response` is still `None`, so classification
of any non-JSON body raises `AttributeError` instead; the version-marker
search and the status-phrase default are unreachable. -/
theorem nonjson_body_classification_crashes :
    check_response ⟨200, Body.text "API version: 4.12"⟩ = Except.error PyErr.attributeError ∧
    check_response ⟨204, Body.text ""⟩ = Except.error PyErr.attributeError := by
  refine ⟨rfl, rfl⟩

/-- C5 counterexample: the claim quantifies over every response outside
{200, 201} that is not the sentinel.  (a) For a 404 with a non-JSON body
the execution raises `AttributeError` (the classifier's `None` slip), not
`BadRequest`.  (b) For a 400 whose JSON body has `message` present but
empty, the raised `BadRequest` carries the standard phrase
`"Bad Request"`, not the body's `message` value `""` (Python's
`data.get('message') or responses[...]` falls through on a falsy value). -/
theorem bad_request_claim_counterexample :
    (request_exec (TransportOutcome.resp ⟨404, Body.text "page not found"⟩)
        (TransportOutcome.resp ⟨404, Body.text "page not found"⟩)
        { value := "token0", new_value := "token1", auto_update := true }
        { method := "GET", url := "https://notify.eskiz.uz/api/nope" }).result
      = Except.error PyErr.attributeError ∧
    (request_exec (TransportOutcome.resp ⟨400, Body.json [("status", "error"), ("message", "")]⟩)
        (TransportOutcome.resp ⟨400, Body.json [("status", "error"), ("message", "")]⟩)
        { value := "token0", new_value := "token1", auto_update := true }
        { method := "GET", url := "https://notify.eskiz.uz/api/nope" }).result
      = Except.error (PyErr.badRequest
          { message := "Bad Request", status := some "error", status_code := 400 }) ∧
    ¬ ((request_exec (TransportOutcome.resp ⟨400, Body.json [("status", "error"), ("message", "")]⟩)
        (TransportOutcome.resp ⟨400, Body.json [("status", "error"), ("message", "")]⟩)
        { value := "token0", new_value := "token1", auto_update := true }
        { method := "GET", url := "https://notify.eskiz.uz/api/nope" }).result
      = Except.error (PyErr.badRequest
          { message := "", status := some "error", status_code := 400 })) := by
  refine ⟨by decide, by decide, by decide⟩

/-- C5 (amended): for every response with a valid JSON body, a status code
outside {200, 201}, and not the expired-token sentinel pair, execution
raises `BadRequest` without calling `token.update()` or resending, with
`status_code` equal to the response's status code, `status` equal to the
body's `status` field (when present), and `message` equal to the body's
`message` field when present and non-empty, otherwise the standard HTTP
status phrase for that code. -/
theorem bad_request_on_error_status (tok : Token) (req : _Request) (o2 : TransportOutcome)
    (c : Nat) (d : JsonDict) (msg : String)
    (hc : ¬ (c = 200 ∨ c = 201))
    (hsent : ¬ (c = 401 ∧ dictGet d "status" = some "token_invalid" ∧
                dictGet d "message" = some "Token expired"))
    (hmsg : truthyGet d "message" = some msg ∨
            (truthyGet d "message" = none ∧ responses c = some msg)) :
    (request_exec (TransportOutcome.resp ⟨c, Body.json d⟩) o2 tok req).updates = 0 ∧
    (request_exec (TransportOutcome.resp ⟨c, Body.json d⟩) o2 tok req).sent.length = 1 ∧
    (request_exec (TransportOutcome.resp ⟨c, Body.json d⟩) o2 tok req).result
      = Except.error (PyErr.badRequest
          { message := msg, status := dictGet d "status", status_code := c }) := by
  rcases hmsg with hmsg | ⟨hmsg, hph⟩
  · simp [request_exec, do_request, check_response, raise_bad_request, bad_request,
      TOKEN_INVALID, EXPIRED_TOKEN, hsent, hc, hmsg]
  · simp [request_exec, do_request, check_response, raise_bad_request, bad_request,
      TOKEN_INVALID, EXPIRED_TOKEN, hsent, hc, hmsg, hph]

/-- Witness for C5 (amended) at a concrete input. -/
theorem bad_request_on_error_status_witness :
    (request_exec (TransportOutcome.resp ⟨404, Body.json [("status", "error")]⟩)
        (TransportOutcome.resp ⟨404, Body.json [("status", "error")]⟩)
        { value := "token0", new_value := "token1", auto_update := true }
        { method := "GET", url := "https://notify.eskiz.uz/api/nope" }).updates = 0 ∧
    (request_exec (TransportOutcome.resp ⟨404, Body.json [("status", "error")]⟩)
        (TransportOutcome.resp ⟨404, Body.json [("status", "error")]⟩)
        { value := "token0", new_value := "token1", auto_update := true }
        { method := "GET", url := "https://notify.eskiz.uz/api/nope" }).sent.length = 1 ∧
    (request_exec (TransportOutcome.resp ⟨404, Body.json [("status", "error")]⟩)
        (TransportOutcome.resp ⟨404, Body.json [("status", "error")]⟩)
        { value := "token0", new_value := "token1", auto_update := true }
        { method := "GET", url := "https://notify.eskiz.uz/api/nope" }).result
      = Except.error (PyErr.badRequest
          { message := "Not Found", status := dictGet [("status", "error")] "status", status_code := 404 }) :=
  bad_request_on_error_status
    { value := "token0", new_value := "token1", auto_update := true }
    { method := "GET", url := "https://notify.eskiz.uz/api/nope" }
    (TransportOutcome.resp ⟨404, Body.json [("status", "error")]⟩)
    404 [("status", "error")] "Not Found"
    (by decide) (by decide) (Or.inr ⟨by decide, by decide⟩)

/-- C6: when `auto_update` is false and the first response is the
expired-token sentinel, the executor performs no refresh and no resend and
raises `BadRequest` built from that same 401 response's data (message
`Token expired`, status `token_invalid`, status code 401). -/
theorem no_auto_update_no_retry (tok : Token) (req : _Request) (o2 : TransportOutcome)
    (d : JsonDict)
    (hauto : tok.auto_update = false)
    (hs : dictGet d "status" = some "token_invalid")
    (hm : dictGet d "message" = some "Token expired") :
    (request_exec (TransportOutcome.resp ⟨401, Body.json d⟩) o2 tok req).updates = 0 ∧
    (request_exec (TransportOutcome.resp ⟨401, Body.json d⟩) o2 tok req).sent.length = 1 ∧
    (request_exec (TransportOutcome.resp ⟨401, Body.json d⟩) o2 tok req).result
      = Except.error (PyErr.badRequest
          { message := "Token expired", status := some "token_invalid", status_code := 401 }) := by
  simp [request_exec, do_request, check_response, raise_bad_request, bad_request,
    truthyGet, TOKEN_INVALID, EXPIRED_TOKEN, hauto, hs, hm]

/-- Witness for C6 at a concrete input. -/
theorem no_auto_update_no_retry_witness :
    (request_exec
        (TransportOutcome.resp ⟨401, Body.json [("status", "token_invalid"), ("message", "Token expired")]⟩)
        (TransportOutcome.resp ⟨200, Body.json [("id", "123")]⟩)
        { value := "token0", new_value := "token1", auto_update := false }
        { method := "GET", url := "https://notify.eskiz.uz/api/user/get-limit" }).updates = 0 ∧
    (request_exec
        (TransportOutcome.resp ⟨401, Body.json [("status", "token_invalid"), ("message", "Token expired")]⟩)
        (TransportOutcome.resp ⟨200, Body.json [("id", "123")]⟩)
        { value := "token0", new_value := "token1", auto_update := false }
        { method := "GET", url := "https://notify.eskiz.uz/api/user/get-limit" }).sent.length = 1 ∧
    (request_exec
        (TransportOutcome.resp ⟨401, Body.json [("status", "token_invalid"), ("message", "Token expired")]⟩)
        (TransportOutcome.resp ⟨200, Body.json [("id", "123")]⟩)
        { value := "token0", new_value := "token1", auto_update := false }
        { method := "GET", url := "https://notify.eskiz.uz/api/user/get-limit" }).result
      = Except.error (PyErr.badRequest
          { message := "Token expired", status := some "token_invalid", status_code := 401 }) :=
  no_auto_update_no_retry
    { value := "token0", new_value := "token1", auto_update := false }
    { method := "GET", url := "https://notify.eskiz.uz/api/user/get-limit" }
    (TransportOutcome.resp ⟨200, Body.json [("id", "123")]⟩)
    [("status", "token_invalid"), ("message", "Token expired")]
    rfl (by decide) (by decide)

/-- C7: for every response with status 200 or 201 and a valid JSON body,
the executor returns exactly the parsed body as the result mapping, with
no refresh, no resend and no exception. -/
theorem success_returns_body (tok : Token) (req : _Request) (o2 : TransportOutcome)
    (c : Nat) (d : JsonDict)
    (hc : c = 200 ∨ c = 201) :
    (request_exec (TransportOutcome.resp ⟨c, Body.json d⟩) o2 tok req).result = Except.ok d ∧
    (request_exec (TransportOutcome.resp ⟨c, Body.json d⟩) o2 tok req).updates = 0 ∧
    (request_exec (TransportOutcome.resp ⟨c, Body.json d⟩) o2 tok req).sent.length = 1 := by
  rcases hc with rfl | rfl <;>
    simp [request_exec, do_request, check_response, TOKEN_INVALID, EXPIRED_TOKEN]

/-- Witness for C7 at a concrete input. -/
theorem success_returns_body_witness :
    (request_exec
        (TransportOutcome.resp ⟨200, Body.json [("balance", "942"), ("status", "success")]⟩)
        (TransportOutcome.resp ⟨500, Body.text "oops"⟩)
        { value := "token0", new_value := "token1", auto_update := true }
        { method := "GET", url := "https://notify.eskiz.uz/api/user/get-limit" }).result
      = Except.ok [("balance", "942"), ("status", "success")] ∧
    (request_exec
        (TransportOutcome.resp ⟨200, Body.json [("balance", "942"), ("status", "success")]⟩)
        (TransportOutcome.resp ⟨500, Body.text "oops"⟩)
        { value := "token0", new_value := "token1", auto_update := true }
        { method := "GET", url := "https://notify.eskiz.uz/api/user/get-limit" }).updates = 0 ∧
    (request_exec
        (TransportOutcome.resp ⟨200, Body.json [("balance", "942"), ("status", "success")]⟩)
        (TransportOutcome.resp ⟨500, Body.text "oops"⟩)
        { value := "token0", new_value := "token1", auto_update := true }
        { method := "GET", url := "https://notify.eskiz.uz/api/user/get-limit" }).sent.length = 1 :=
  success_returns_body
    { value := "token0", new_value := "token1", auto_update := true }
    { method := "GET", url := "https://notify.eskiz.uz/api/user/get-limit" }
    (TransportOutcome.resp ⟨500, Body.text "oops"⟩)
    200 [("balance", "942"), ("status", "success")]
    (Or.inl rfl)

/-- C8 counterexample: the claim says normalization is applied on the
decorator-bound endpoint path too.  The `_wrapper` closure built by
`Request._method_decorator` hands `fn`'s return value to
`_prepare_request` without calling `_prepare_payload`: the constructed
body still holds `from_whom` and the raw phone number, and no `from` key
appears. -/
theorem decorator_path_skips_normalization :
    (wrapper_request "POST" "/message/sms/send"
        [("from_whom", "4546"), ("mobile_phone", "+998 90 123 45 67")]).data
      = some [("from_whom", "4546"), ("mobile_phone", "+998 90 123 45 67")] ∧
    dictGet ((wrapper_request "POST" "/message/sms/send"
        [("from_whom", "4546"), ("mobile_phone", "+998 90 123 45 67")]).data.getD [])
        "from" = none ∧
    dictGet ((wrapper_request "POST" "/message/sms/send"
        [("from_whom", "4546"), ("mobile_phone", "+998 90 123 45 67")]).data.getD [])
        "from_whom" = some "4546" ∧
    dictGet ((wrapper_request "POST" "/message/sms/send"
        [("from_whom", "4546"), ("mobile_phone", "+998 90 123 45 67")]).data.getD [])
        "mobile_phone" = some "+998 90 123 45 67" := by
  refine ⟨rfl, by decide, by decide, by decide⟩

/-- C8 (amended): on the direct-call path (`Request.__call__`) the payload
is passed through `_prepare_payload` before `_Request` construction: the
`from_whom` key is renamed to `from` and the `mobile_phone` value has
every `+` and space character removed; the decorator-bound endpoint path
passes the payload-builder's result to `_prepare_request` without this
normalization. -/
theorem direct_path_normalizes_payload (method path : String) (payload : JsonDict)
    (f m : String)
    (hf : dictGet payload "from_whom" = some f)
    (hm : dictGet payload "mobile_phone" = some m) :
    ∃ body : JsonDict,
      (call_build method path (some payload)).data = some body ∧
      dictGet body "from" = some f ∧
      dictGet body "from_whom" = none ∧
      dictGet body "mobile_phone" = some (stripPlusSpace m) := by
  have hne1 : ¬ ("mobile_phone" : String) = "from" := by decide
  have hne2 : ¬ ("mobile_phone" : String) = "from_whom" := by decide
  have hne3 : ¬ ("from" : String) = "mobile_phone" := by decide
  have hne4 : ¬ ("from_whom" : String) = "mobile_phone" := by decide
  have hne5 : ¬ ("from_whom" : String) = "from" := by decide
  have hp1 : dictGet (dictSet (dictRemove payload "from_whom") "from" f) "mobile_phone"
      = some m := by
    rw [dictGet_set_ne _ _ _ hne1, dictGet_remove_ne _ _ hne2, hm]
  have hbody : prepare_payload (some payload)
      = dictSet (dictSet (dictRemove payload "from_whom") "from" f) "mobile_phone"
          (stripPlusSpace m) := by
    simp only [prepare_payload, Option.getD]
    rw [hf, hp1]
  refine ⟨prepare_payload (some payload), rfl, ?_, ?_, ?_⟩
  · rw [hbody, dictGet_set_ne _ _ _ hne3, dictGet_set_self]
  · rw [hbody, dictGet_set_ne _ _ _ hne4, dictGet_set_ne _ _ _ hne5, dictGet_remove_self]
  · rw [hbody, dictGet_set_self]

/-- Witness for C8 (amended) at the spec's concrete example. -/
theorem direct_path_normalizes_payload_witness :
    ∃ body : JsonDict,
      (call_build "POST" "/message/sms/send"
          (some [("from_whom", "4546"), ("mobile_phone", "+998 90 123 45 67")])).data
        = some body ∧
      dictGet body "from" = some "4546" ∧
      dictGet body "from_whom" = none ∧
      dictGet body "mobile_phone" = some "998901234567" :=
  direct_path_normalizes_payload "POST" "/message/sms/send"
    [("from_whom", "4546"), ("mobile_phone", "+998 90 123 45 67")]
    "4546" "+998 90 123 45 67" (by decide) (by decide)

/-- C9: the claim says a decorator-bound call in async mode returns a
deferred handle whose resolution applies the declared response shape.  In
the code the handle's constructor `Coro.__init__` contains
`self.return_type-return_type` — a subtraction in place of an assignment —
which reads the never-assigned attribute `return_type` and raises
`AttributeError` at call time, so no deferred handle is ever produced when
a response shape is declared. -/
theorem async_decorator_coro_construction_crashes :
    wrapper_async
      (TransportOutcome.resp ⟨200, Body.json [("status", "success")]⟩)
      (TransportOutcome.resp ⟨200, Body.json [("status", "success")]⟩)
      { value := "token0", new_value := "token1", auto_update := true }
      "GET" "/user/get-limit" [("email", "user")]
      (some { name := "EskizSMSResponse" })
      = Except.error PyErr.attributeError ∧
    Coro_init
      (request_exec
        (TransportOutcome.resp ⟨200, Body.json [("status", "success")]⟩)
        (TransportOutcome.resp ⟨200, Body.json [("status", "success")]⟩)
        { value := "token0", new_value := "token1", auto_update := true }
        (wrapper_request "GET" "/user/get-limit" [("email", "user")]))
      (some { name := "EskizSMSResponse" })
      = Except.error PyErr.attributeError := by
  refine ⟨rfl, rfl⟩

/-- C10: every `_Response` value that `_check_response` returns (rather
than raising) has status code 200 or 201, or `token_expired` set: a
response that is neither a success nor the expired-token sentinel never
reaches the executor's retry logic. -/
theorem check_response_return_invariant (r : HttpxResponse) (resp : _Response)
    (h : check_response r = Except.ok resp) :
    resp.status_code = 200 ∨ resp.status_code = 201 ∨ resp.token_expired = true := by
  rcases r with ⟨c, b⟩
  cases b with
  | text s => simp [check_response] at h
  | json d =>
      by_cases h401 : c = 401 ∧ dictGet d "status" = some TOKEN_INVALID ∧
          dictGet d "message" = some EXPIRED_TOKEN
      · simp [check_response, h401] at h
        rw [← h]
        right; right; rfl
      · by_cases hok : c = 200 ∨ c = 201
        · simp [check_response, h401, hok] at h
          rw [← h]
          rcases hok with rfl | rfl
          · left; rfl
          · right; left; rfl
        · cases hbr : bad_request { status_code := c, data := d } with
          | ok br => simp [check_response, h401, hok, hbr] at h
          | error e => simp [check_response, h401, hok, hbr] at h

/-- Witness for C10 at a concrete input: the sentinel 401 response is
returned with `token_expired` set. -/
theorem check_response_return_invariant_witness :
    (_Response.mk 401 [("status", "token_invalid"), ("message", "Token expired")] true).status_code
      = 200 ∨
    (_Response.mk 401 [("status", "token_invalid"), ("message", "Token expired")] true).status_code
      = 201 ∨
    (_Response.mk 401 [("status", "token_invalid"), ("message", "Token expired")] true).token_expired
      = true :=
  check_response_return_invariant
    ⟨401, Body.json [("status", "token_invalid"), ("message", "Token expired")]⟩
    (_Response.mk 401 [("status", "token_invalid"), ("message", "Token expired")] true)
    (by decide)

end EskizSms
